import Mathlib

/-!
# Verification of the pdf2image conversion tool

A shallow embedding of `src/tools/pdf2image.py`, a Dify plugin tool that
downloads PDF documents, rasterises every page to a PNG image and streams the
images back to the host.  The external collaborators — the HTTP client
(`requests.get`) and the PDF library (`fitz` / PyMuPDF) — are modelled as
oracles packed into a `World`; everything the tool itself computes is
translated from the source.

Python `bytes` payloads are modelled as `List Nat`; exceptions become explicit
`Except` / `Option` results; the generator of yielded `ToolInvokeMessage`s
becomes a list of `Event`s.
-/

/-- Raw byte payloads (Python `bytes`) as lists of byte values. -/
abbrev Bytes := List Nat

/-- A Dify host file object, read-only to the tool.  The source accesses the
attributes `filename`, `url` and `mime_type` dynamically; a `none` field models
an absent attribute (whose access raises `AttributeError`).  `mime_type` is
always present on host file objects and is modelled as a plain field. -/
structure DifyFile where
  filename : Option String
  url : Option String
  mime_type : String
deriving DecidableEq

deriving instance DecidableEq for Except

/-- Outcome of `fitz.open(stream=pdf_bytes, filetype="pdf")`.  On success the
document is abstracted as the list of per-page outcomes of
`load_page` / `get_pixmap(dpi=...)` / `tobytes(output=...)` for the fixed
invocation parameters: either the encoded image bytes, or the message of the
exception raised while processing that page.  `fitzErr` is a
`fitz.errors.FitzError` raised by `fitz.open`; `otherErr` is any other
exception raised by `fitz.open`. -/
inductive OpenResult where
  | ok (pages : List (Except String Bytes))
  | fitzErr (msg : String)
  | otherErr (msg : String)
deriving DecidableEq

/-- The external world: `net url` is the body of a successful
`requests.get(url, timeout=60)` (after `raise_for_status`), or the message of
the raised `requests.exceptions.RequestException`; `openPdf` is the PDF
library's document-open outcome on given bytes. -/
structure World where
  net : String → Except String Bytes
  openPdf : Bytes → OpenResult

/-- Python exceptions that can reach the orchestrator's catch-all handler.
`msg` is `str(e)`, the text interpolated into the terminal error message. -/
inductive PyErr where
  | valueError (m : String)
  | ioError (m : String)
  | attributeError (m : String)
  | other (m : String)
deriving DecidableEq

/-- `str(e)` of an exception, as interpolated into f-strings. -/
def PyErr.msg : PyErr → String
  | .valueError m => m
  | .ioError m => m
  | .attributeError m => m
  | .other m => m

/-- Python `s.rstrip('/')`: strip every trailing slash. -/
def pyRstripSlash (s : String) : String :=
  String.mk ((s.data.reverse.dropWhile (fun c => c == '/')).reverse)

/-- Python `s.startswith(p)`. -/
def pyStartsWith (s p : String) : Bool :=
  p.data.isPrefixOf s.data

/-- Python `s[1:]` (drop the first character), used only to phrase the
specification's wording of the URL-resolution policy. -/
def pyDrop1 (s : String) : String :=
  String.mk (s.data.drop 1)

/-- URL resolution performed inside `download_dify_file_content`
(src/tools/pdf2image.py lines 26–33): an absolute `http(s)` URL is used
verbatim; otherwise the host URL is stripped of trailing slashes and the
relative URL is appended, inserting a `/` unless the relative URL already
starts with one. -/
def resolve_full_url (relative_url : String) (dify_host_url : String) : String :=
  let cleaned_host_url := pyRstripSlash dify_host_url
  if pyStartsWith relative_url "http://" || pyStartsWith relative_url "https://" then
    relative_url
  else if pyStartsWith relative_url "/" then
    cleaned_host_url ++ relative_url
  else
    cleaned_host_url ++ "/" ++ relative_url

/-- The URL-resolution policy as the specification words it: scheme-bearing
URLs verbatim; otherwise the trimmed base joined to the relative URL with
exactly one `/` separator at the junction, regardless of whether the relative
URL itself starts with `/`. -/
def urlResolutionSpec (relative_url : String) (dify_host_url : String) : String :=
  if pyStartsWith relative_url "http://" || pyStartsWith relative_url "https://" then
    relative_url
  else
    pyRstripSlash dify_host_url ++ "/" ++
      (if pyStartsWith relative_url "/" then pyDrop1 relative_url else relative_url)

/-- One diagnostic print of `download_dify_file_content`, with the data the
corresponding f-string interpolates. -/
inductive LogMsg where
  | malformedObj (obj : DifyFile)
  | preparing (full_url : String)
  | downloaded (byteCount : Nat) (file_name_full : String)
  | downloadFailed (file_name_full : String) (full_url : String) (cause : String)
deriving DecidableEq

/-- Result of `download_dify_file_content`: the returned value
(`bytes | None`), the diagnostics printed, and whether `requests.get` was
called at all. -/
structure DownloadOut where
  content : Option Bytes
  log : List LogMsg
  requested : Bool
deriving DecidableEq

/-- `download_dify_file_content(dify_file_obj, dify_host_url)`
(src/tools/pdf2image.py lines 12–44): read `filename` and `url` (an absent
attribute raises `AttributeError`, caught and turned into `None` with a
diagnostic, before any network activity); resolve the full URL; GET it; return
the body, or `None` on a `RequestException`. -/
def download_dify_file_content (w : World) (dify_file_obj : DifyFile)
    (dify_host_url : String) : DownloadOut :=
  match dify_file_obj.filename, dify_file_obj.url with
  | some file_name_full, some relative_url =>
    let full_url := resolve_full_url relative_url dify_host_url
    match w.net full_url with
    | .ok blob_content =>
      ⟨some blob_content,
        [LogMsg.preparing full_url, LogMsg.downloaded blob_content.length file_name_full],
        true⟩
    | .error e =>
      ⟨none,
        [LogMsg.preparing full_url, LogMsg.downloadFailed file_name_full full_url e],
        true⟩
  | _, _ => ⟨none, [LogMsg.malformedObj dify_file_obj], false⟩

/-- `f"处理PDF第 {page_number + 1} 页时失败: {e}"` — the `ValueError` message for a
page that failed to rasterise or encode (1-indexed page number). -/
def pageErrMsg (p : Nat) (cause : String) : String :=
  "处理PDF第 " ++ toString p ++ " 页时失败: " ++ cause

/-- `f"打开或解析PDF文件时出错: {e}"` — the `ValueError` message wrapping a
`fitz.errors.FitzError` raised while opening the document. -/
def openErrMsg (cause : String) : String :=
  "打开或解析PDF文件时出错: " ++ cause

/-- The per-page loop of `convert_pdf_to_image_blobs` (lines 69–81):
pages in order; a successful page contributes its encoded bytes; the first
failing page aborts the whole loop with a `ValueError` naming the 1-indexed
page number and the cause, discarding pages already rendered. -/
def renderPages : Nat → List (Except String Bytes) → Except PyErr (List Bytes)
  | _, [] => .ok []
  | page_number, Except.ok img_data :: rest =>
    match renderPages (page_number + 1) rest with
    | .ok image_blobs => .ok (img_data :: image_blobs)
    | .error e => .error e
  | page_number, Except.error cause :: _ =>
    .error (.valueError (pageErrMsg (page_number + 1) cause))

/-- Resource events of one `convert_pdf_to_image_blobs` call: the document
handle being opened by `fitz.open`, and being closed by the `finally` block. -/
inductive ResEvent where
  | opened
  | closed
deriving DecidableEq

/-- `convert_pdf_to_image_blobs(pdf_bytes, ...)` (lines 46–92) together with
its resource trace.  `fitz.open` succeeding assigns the handle (`opened`);
the `finally` block closes it whenever it was assigned (`closed`).  A
`FitzError` from `fitz.open` is wrapped into a `ValueError`; any other
exception from `fitz.open` propagates unwrapped; a page failure propagates as
the `ValueError` raised inside the loop. -/
def convertRun (w : World) (pdf_bytes : Bytes) :
    Except PyErr (List Bytes) × List ResEvent :=
  match w.openPdf pdf_bytes with
  | .ok doc =>
    match renderPages 0 doc with
    | .ok image_blobs => (.ok image_blobs, [ResEvent.opened, ResEvent.closed])
    | .error e => (.error e, [ResEvent.opened, ResEvent.closed])
  | .fitzErr m => (.error (.valueError (openErrMsg m)), [])
  | .otherErr m => (.error (.other m), [])

/-- The value/exception outcome of `convert_pdf_to_image_blobs`. -/
def convert_pdf_to_image_blobs (w : World) (pdf_bytes : Bytes) :
    Except PyErr (List Bytes) :=
  (convertRun w pdf_bytes).1

/-- One yielded `ToolInvokeMessage`: a text status message
(`create_text_message`), a structured JSON result carrying its `result` string
(`create_json_message`), or an image blob with its metadata
(`create_blob_message`). -/
inductive Event where
  | text (s : String)
  | json (result : String)
  | blob (file_name : String) (mime_type : String) (data : Bytes)
deriving DecidableEq

/-- `"▶️ 开始验证所有文件格式..."` -/
def startValidateMsg : String := "▶️ 开始验证所有文件格式..."

/-- `"✅ 所有文件格式验证通过。开始处理..."` -/
def validatePassMsg : String := "✅ 所有文件格式验证通过。开始处理..."

/-- `f"⚙️ 正在处理文件: {dify_file_obj.filename}..."` -/
def startFileMsg (name : String) : String :=
  "⚙️ 正在处理文件: " ++ name ++ "..."

/-- `f"✔️ 文件 '{dify_file_obj.filename}' 成功转换为 {len(image_blobs)} 张图片。"` -/
def convertedMsg (name : String) (k : Nat) : String :=
  "✔️ 文件 \x27" ++ name ++ "\x27 成功转换为 " ++ toString k ++ " 张图片。"

/-- `"🎉 所有文件处理完成！"` -/
def allDoneMsg : String := "🎉 所有文件处理完成！"

/-- `f"Unsupported file type: {dify_file_obj.mime_type}"` — the `result` field
of the rejection JSON message. -/
def unsupportedMsg (mime : String) : String :=
  "Unsupported file type: " ++ mime

/-- `f"输入错误: 文件 '{...filename}' 不是PDF格式。此工具仅支持处理PDF文件。"` — the
`ValueError` message raised after the rejection JSON message. -/
def typeErrMsg (name : String) : String :=
  "输入错误: 文件 \x27" ++ name ++ "\x27 不是PDF格式。此工具仅支持处理PDF文件。"

/-- `f"下载文件 '{...filename}' 失败，请检查URL或网络连接。"` — the `IOError` message for
an empty or failed download. -/
def dlFailMsg (name : String) : String :=
  "下载文件 \x27" ++ name ++ "\x27 失败，请检查URL或网络连接。"

/-- `f"操作已中止，发生错误: {e}"` — the `result` field of the terminal JSON message
produced by the orchestrator's catch-all handler. -/
def abortMsg (e : PyErr) : String :=
  "操作已中止，发生错误: " ++ e.msg

/-- Phase 1 of `Pdf2imageTool._invoke` (lines 107–113): scan the references in
order; on the first one whose `mime_type` is not `"application/pdf"`, yield the
rejection JSON message and raise a `ValueError` (whose message reads the
file's `filename` attribute). -/
def phase1 : List DifyFile → List Event × Option PyErr
  | [] => ([], none)
  | f :: rest =>
    if f.mime_type ≠ "application/pdf" then
      ([Event.json (unsupportedMsg f.mime_type)],
        some (match f.filename with
          | some n => PyErr.valueError (typeErrMsg n)
          | none => PyErr.attributeError "filename"))
    else phase1 rest

/-- The `for i, image_blob in enumerate(image_blobs)` loop (lines 129–136):
one blob message per image, named `{filename}_page{i+1}.png`, MIME type
`image/png`. -/
def blobEvents (name : String) : Nat → List Bytes → List Event
  | _, [] => []
  | i, image_blob :: rest =>
    Event.blob (name ++ "_page" ++ toString (i + 1) ++ ".png") "image/png" image_blob ::
      blobEvents name (i + 1) rest

/-- The body of the per-file loop of `Pdf2imageTool._invoke` (lines 117–136):
yield the start status (reading `filename`), download, raise `IOError` on a
falsy (`None` or empty) result, convert, yield the converted-count status and
one blob message per image.  Returns the events yielded for this file and the
exception that escaped, if any. -/
def processOne (w : World) (host : String) (f : DifyFile) :
    List Event × Option PyErr :=
  match f.filename with
  | none => ([], some (PyErr.attributeError "filename"))
  | some name =>
    let start := Event.text (startFileMsg name)
    match (download_dify_file_content w f host).content with
    | none => ([start], some (PyErr.ioError (dlFailMsg name)))
    | some pdf_blob =>
      if pdf_blob = [] then
        ([start], some (PyErr.ioError (dlFailMsg name)))
      else
        match convert_pdf_to_image_blobs w pdf_blob with
        | .error e => ([start], some e)
        | .ok image_blobs =>
          (start :: Event.text (convertedMsg name image_blobs.length) ::
              blobEvents name 0 image_blobs,
            none)

/-- Phase 2 of `Pdf2imageTool._invoke`: the per-file loop, strictly in input
order; the first escaping exception ends the loop with the events yielded so
far. -/
def phase2 (w : World) (host : String) : List DifyFile → List Event × Option PyErr
  | [] => ([], none)
  | f :: rest =>
    match processOne w host f with
    | (evs, some e) => (evs, some e)
    | (evs, none) =>
      let r := phase2 w host rest
      (evs ++ r.1, r.2)

/-- `Pdf2imageTool._invoke` (lines 101–151): the initial status message, the
validation phase, the per-file phase, the final status message on full
success; any exception from phase 1 or phase 2 is caught once at the end and
turned into a single terminal JSON message, after which the generator
returns. -/
def toolInvoke (w : World) (files : List DifyFile) (host : String) : List Event :=
  Event.text startValidateMsg ::
    (match phase1 files with
     | (evs, some e) => evs ++ [Event.json (abortMsg e)]
     | (evs, none) =>
       evs ++ Event.text validatePassMsg ::
         (match phase2 w host files with
          | (evs2, some e) => evs2 ++ [Event.json (abortMsg e)]
          | (evs2, none) => evs2 ++ [Event.text allDoneMsg]))

/-! ## Concrete fixtures for closed witnesses -/

/-- A world whose PDF library renders page 1 fine and fails on page 2. -/
def wPageFail : World :=
  { net := fun _ => Except.ok [],
    openPdf := fun _ => OpenResult.ok [Except.ok [1], Except.error "boom"] }

/-- A world whose PDF library raises a non-`FitzError` exception during
`fitz.open`. -/
def wOtherOpenErr : World :=
  { net := fun _ => Except.ok [],
    openPdf := fun _ => OpenResult.otherErr "unexpected" }

/-- A world whose PDF library raises a `FitzError` during `fitz.open`. -/
def wFitzOpenErr : World :=
  { net := fun _ => Except.ok [],
    openPdf := fun _ => OpenResult.fitzErr "bad xref" }

/-- A well-formed PDF file reference. -/
def fileGood : DifyFile :=
  { filename := some "a.pdf", url := some "files/a.pdf", mime_type := "application/pdf" }

/-- A second well-formed PDF file reference. -/
def fileB : DifyFile :=
  { filename := some "b.pdf", url := some "files/b.pdf", mime_type := "application/pdf" }

/-- A reference whose declared MIME type is not PDF. -/
def fileText : DifyFile :=
  { filename := some "b.txt", url := some "files/b.txt", mime_type := "text/plain" }

/-- A reference missing its `url` attribute. -/
def fileNoUrl : DifyFile :=
  { filename := some "c.pdf", url := none, mime_type := "application/pdf" }

/-- A world serving `a.pdf` as a two-page document (the second page's image is
`[9]`, the first page's image echoes the downloaded bytes). -/
def wTwoPages : World :=
  { net := fun u =>
      if u = "http://h.com/files/a.pdf" then Except.ok [7, 8] else Except.error "conn",
    openPdf := fun b => OpenResult.ok [Except.ok b, Except.ok [9]] }

/-- A world whose every download raises a `RequestException`. -/
def wNetFail : World :=
  { net := fun _ => Except.error "timeout", openPdf := fun _ => OpenResult.ok [] }

/-- A world serving every download but opening every document as zero pages. -/
def wZeroPages : World :=
  { net := fun _ => Except.ok [3], openPdf := fun _ => OpenResult.ok [] }

/-- A world where only `a.pdf` downloads (one page); every other URL fails. -/
def wSecondFails : World :=
  { net := fun u =>
      if u = "http://h.com/files/a.pdf" then Except.ok [7] else Except.error "conn",
    openPdf := fun b => OpenResult.ok [Except.ok b] }

/-! ## String lemmas -/

theorem strAppendAssoc (a b c : String) : a ++ b ++ c = a ++ (b ++ c) := by
  obtain ⟨x⟩ := a
  obtain ⟨y⟩ := b
  obtain ⟨z⟩ := c
  show String.mk (x ++ y ++ z) = String.mk (x ++ (y ++ z))
  rw [List.append_assoc]

theorem slash_cons (s : String) (h : pyStartsWith s "/" = true) :
    "/" ++ pyDrop1 s = s := by
  obtain ⟨d⟩ := s
  cases d with
  | nil =>
    have hd : "/".data = ['/'] := rfl
    simp [pyStartsWith, hd, List.isPrefixOf] at h
  | cons c t =>
    have hd : "/".data = ['/'] := rfl
    simp [pyStartsWith, hd, List.isPrefixOf] at h
    subst h
    rfl

/-! ## C2 — URL resolution -/

/-- Claim C2: the request URL is `ref.url` verbatim when it carries an
`http://` or `https://` scheme; otherwise it is the base URL stripped of
trailing slashes, joined to `ref.url` with exactly one `/` inserted at the
junction whether or not `ref.url` starts with `/` (formalised by
`urlResolutionSpec`, which always inserts one `/` after removing `ref.url`'s
own leading slash).  In particular `"files/a.pdf"` and `"/files/a.pdf"`
against host `"http://h.com/"` both resolve to
`"http://h.com/files/a.pdf"`. -/
theorem claim2_url_resolution :
    (∀ relative_url dify_host_url : String,
        resolve_full_url relative_url dify_host_url =
          urlResolutionSpec relative_url dify_host_url) ∧
    resolve_full_url "files/a.pdf" "http://h.com/" = "http://h.com/files/a.pdf" ∧
    resolve_full_url "/files/a.pdf" "http://h.com/" = "http://h.com/files/a.pdf" := by
  refine ⟨fun rel host => ?_, by decide, by decide⟩
  simp only [resolve_full_url, urlResolutionSpec]
  cases hh : (pyStartsWith rel "http://" || pyStartsWith rel "https://") with
  | true => simp [hh]
  | false =>
    simp only [hh, Bool.false_eq_true, if_false]
    cases hs : pyStartsWith rel "/" with
    | false => simp [hs]
    | true =>
      simp only [hs, if_true]
      rw [strAppendAssoc, slash_cons rel hs]

/-! ## Rasterizer lemmas -/

theorem renderPages_ok (imgs : List Bytes) (i : Nat) :
    renderPages i (imgs.map Except.ok) = Except.ok imgs := by
  induction imgs generalizing i with
  | nil => rfl
  | cons x xs ih => simp [renderPages, ih]

theorem renderPages_err (pre : List Bytes) (i : Nat) (cause : String)
    (suf : List (Except String Bytes)) :
    renderPages i (pre.map Except.ok ++ Except.error cause :: suf) =
      Except.error (PyErr.valueError (pageErrMsg (i + pre.length + 1) cause)) := by
  induction pre generalizing i with
  | nil => simp [renderPages]
  | cons x xs ih =>
    have h : i + 1 + xs.length + 1 = i + (xs.length + 1) + 1 := by omega
    simp [renderPages, ih (i + 1), h]

/-! ## C1 — per-page fail-fast -/

/-- Claim C1: if the document opens and page `p` (0-indexed; here
`p = pre.length`, all pages before it rendering fine) fails to render or
encode, `convert_pdf_to_image_blobs` returns no images at all: it fails with
the `ValueError` naming the 1-indexed page number `p + 1` and the underlying
cause.  The pages after `p` (`suf`) are arbitrary and absent from the result,
so they are never processed, and the images of the pages before `p` are
discarded rather than returned. -/
theorem claim1_page_failure_fail_fast (w : World) (pdf : Bytes)
    (pre : List Bytes) (cause : String) (suf : List (Except String Bytes))
    (hopen : w.openPdf pdf =
      OpenResult.ok (pre.map Except.ok ++ Except.error cause :: suf)) :
    convert_pdf_to_image_blobs w pdf =
      Except.error (PyErr.valueError (pageErrMsg (pre.length + 1) cause)) := by
  simp [convert_pdf_to_image_blobs, convertRun, hopen, renderPages_err pre 0 cause suf]

theorem claim1_witness :
    convert_pdf_to_image_blobs wPageFail [0] =
      Except.error (PyErr.valueError (pageErrMsg 2 "boom")) :=
  claim1_page_failure_fail_fast wPageFail [0] [[1]] "boom" [] rfl

/-! ## C5 — document handle released on every exit path -/

/-- Claim C5: whenever a `convert_pdf_to_image_blobs` run opened the document
handle, its resource trace is exactly `opened` followed by `closed` — the
`finally` block closes the handle exactly once, whether the page loop
succeeded or raised; when the open itself fails the trace is empty, so no run
leaves an opened handle unreleased. -/
theorem claim5_handle_released (w : World) (pdf : Bytes)
    (h : ResEvent.opened ∈ (convertRun w pdf).2) :
    (convertRun w pdf).2 = [ResEvent.opened, ResEvent.closed] := by
  rcases ho : w.openPdf pdf with doc | m | m
  · rcases hr : renderPages 0 doc with imgs | e <;> simp [convertRun, ho, hr]
  · simp [convertRun, ho] at h
  · simp [convertRun, ho] at h

theorem claim5_witness :
    (convertRun wPageFail [0]).2 = [ResEvent.opened, ResEvent.closed] :=
  claim5_handle_released wPageFail [0] (by decide)

/-! ## C6 — failure classes at the open stage -/

/-- Claim C6 is false as stated: when `fitz.open` raises an exception that is
not a `fitz.errors.FitzError`, `convert_pdf_to_image_blobs` does not map it to
the parse-failure `ValueError` — the exception propagates unwrapped (here as
`PyErr.other`), a distinct, unmapped error. -/
theorem claim6_counterexample :
    convert_pdf_to_image_blobs wOtherOpenErr [0] =
      Except.error (PyErr.other "unexpected") ∧
    ¬ ∃ m : String, convert_pdf_to_image_blobs wOtherOpenErr [0] =
        Except.error (PyErr.valueError m) := by
  refine ⟨rfl, ?_⟩
  rintro ⟨m, hm⟩
  simp [convert_pdf_to_image_blobs, convertRun, wOtherOpenErr] at hm

/-- Claim C6 amended: a library-specific parse failure (`FitzError` from
`fitz.open`) is wrapped as the `DocumentOpenError`-style `ValueError` with no
pages returned, while any other exception raised during open propagates to
the caller unwrapped; the two are unified only by the orchestrator's
top-level catch-all handler. -/
theorem claim6_amended_open_failures (w : World) (pdf : Bytes) (m : String) :
    (w.openPdf pdf = OpenResult.fitzErr m →
      convert_pdf_to_image_blobs w pdf =
        Except.error (PyErr.valueError (openErrMsg m))) ∧
    (w.openPdf pdf = OpenResult.otherErr m →
      convert_pdf_to_image_blobs w pdf = Except.error (PyErr.other m)) := by
  constructor <;> intro h <;> simp [convert_pdf_to_image_blobs, convertRun, h]

theorem claim6_amended_witness :
    convert_pdf_to_image_blobs wFitzOpenErr [] =
      Except.error (PyErr.valueError (openErrMsg "bad xref")) ∧
    convert_pdf_to_image_blobs wOtherOpenErr [0] =
      Except.error (PyErr.other "unexpected") :=
  ⟨(claim6_amended_open_failures wFitzOpenErr [] "bad xref").1 rfl,
   (claim6_amended_open_failures wOtherOpenErr [0] "unexpected").2 rfl⟩

/-! ## Orchestrator lemmas -/

theorem phase1_all_ok (fs : List DifyFile)
    (h : ∀ f ∈ fs, f.mime_type = "application/pdf") :
    phase1 fs = ([], none) := by
  induction fs with
  | nil => rfl
  | cons f rest ih =>
    have hf : f.mime_type = "application/pdf" := h f (List.mem_cons_self f rest)
    simp only [phase1, hf, ne_eq, not_true_eq_false, if_false]
    exact ih fun g hg => h g (List.mem_cons_of_mem f hg)

theorem phase1_first_bad (pre rest : List DifyFile) (bad : DifyFile) (n : String)
    (hpre : ∀ f ∈ pre, f.mime_type = "application/pdf")
    (hbad : bad.mime_type ≠ "application/pdf")
    (hname : bad.filename = some n) :
    phase1 (pre ++ bad :: rest) =
      ([Event.json (unsupportedMsg bad.mime_type)],
        some (PyErr.valueError (typeErrMsg n))) := by
  induction pre with
  | nil => simp [phase1, hbad, hname]
  | cons f fs ih =>
    have hf : f.mime_type = "application/pdf" := hpre f (List.mem_cons_self f fs)
    simp only [List.cons_append, phase1, hf, ne_eq, not_true_eq_false, if_false]
    exact ih fun g hg => hpre g (List.mem_cons_of_mem f hg)

theorem blobEvents_length (name : String) (imgs : List Bytes) (k : Nat) :
    (blobEvents name k imgs).length = imgs.length := by
  induction imgs generalizing k with
  | nil => rfl
  | cons x xs ih => simp [blobEvents, ih]

theorem blobEvents_get (name : String) (imgs : List Bytes) (k i : Nat)
    (hi : i < imgs.length) (hi2 : i < (blobEvents name k imgs).length) :
    (blobEvents name k imgs).get ⟨i, hi2⟩ =
      Event.blob (name ++ "_page" ++ toString (k + i + 1) ++ ".png") "image/png"
        (imgs.get ⟨i, hi⟩) := by
  induction imgs generalizing k i with
  | nil => exact absurd hi (by simp)
  | cons x xs ih =>
    cases i with
    | zero => rfl
    | succ j =>
      have hj : j < xs.length := by simpa using hi
      have hj2 : j < (blobEvents name (k + 1) xs).length := by
        rw [blobEvents_length]; exact hj
      have hrec := ih (k + 1) j hj hj2
      have harith : k + 1 + j + 1 = k + (j + 1) + 1 := by omega
      rw [harith] at hrec
      simpa [blobEvents] using hrec

theorem blobEvents_no_json (name : String) (imgs : List Bytes) (k : Nat) (s : String) :
    Event.json s ∉ blobEvents name k imgs := by
  induction imgs generalizing k with
  | nil => simp [blobEvents]
  | cons x xs ih =>
    simp only [blobEvents, List.mem_cons]
    rintro (h | h)
    · exact Event.noConfusion h
    · exact ih (k + 1) h

theorem processOne_success (w : World) (host : String) (f : DifyFile)
    (n u : String) (b : Bytes) (imgs : List Bytes)
    (hn : f.filename = some n) (hu : f.url = some u)
    (hnet : w.net (resolve_full_url u host) = Except.ok b) (hb : b ≠ [])
    (hopen : w.openPdf b = OpenResult.ok (imgs.map Except.ok)) :
    processOne w host f =
      (Event.text (startFileMsg n) :: Event.text (convertedMsg n imgs.length) ::
        blobEvents n 0 imgs, none) := by
  simp [processOne, hn, download_dify_file_content, hu, hnet, hb,
    convert_pdf_to_image_blobs, convertRun, hopen, renderPages_ok]

theorem processOne_no_json (w : World) (host : String) (f : DifyFile) (s : String)
    (hok : (processOne w host f).2 = none) :
    Event.json s ∉ (processOne w host f).1 := by
  rcases hn : f.filename with _ | name
  · simp [processOne, hn] at hok
  · rcases hd : (download_dify_file_content w f host).content with _ | b
    · simp [processOne, hn, hd] at hok
    · by_cases hb : b = []
      · simp [processOne, hn, hd, hb] at hok
      · rcases hc : convert_pdf_to_image_blobs w b with e | imgs
        · simp [processOne, hn, hd, hb, hc] at hok
        · simp only [processOne, hn, hd, hb, hc, if_false, List.mem_cons]
          rintro (h | h | h)
          · exact Event.noConfusion h
          · exact Event.noConfusion h
          · exact blobEvents_no_json name imgs 0 s h

theorem phase2_append_ok (w : World) (host : String) (pre rest : List DifyFile)
    (hpre : ∀ f ∈ pre, (processOne w host f).2 = none) :
    phase2 w host (pre ++ rest) =
      ((pre.map fun f => (processOne w host f).1).flatten ++ (phase2 w host rest).1,
        (phase2 w host rest).2) := by
  induction pre with
  | nil => simp
  | cons f fs ih =>
    have hf : (processOne w host f).2 = none := hpre f (List.mem_cons_self f fs)
    rcases hp : processOne w host f with ⟨evs, err⟩
    rw [hp] at hf
    simp only at hf
    subst hf
    have ihr := ih fun g hg => hpre g (List.mem_cons_of_mem f hg)
    simp [phase2, hp, ihr]

/-! ## C3 — MIME-type validation aborts the whole batch -/

/-- Claim C3: for a batch whose first non-PDF reference is `bad` (every file
before it declares `application/pdf`; its position is arbitrary and the files
after it are arbitrary), the tool's whole output — for every world, so before
any download or conversion is attempted — is exactly the opening status, one
structured rejection event, and the single terminal error event: zero images
for the entire batch. -/
theorem claim3_type_validation (w : World) (host : String)
    (pre rest : List DifyFile) (bad : DifyFile) (n : String)
    (hpre : ∀ f ∈ pre, f.mime_type = "application/pdf")
    (hbad : bad.mime_type ≠ "application/pdf")
    (hname : bad.filename = some n) :
    toolInvoke w (pre ++ bad :: rest) host =
      [Event.text startValidateMsg,
        Event.json (unsupportedMsg bad.mime_type),
        Event.json (abortMsg (PyErr.valueError (typeErrMsg n)))] := by
  simp [toolInvoke, phase1_first_bad pre rest bad n hpre hbad hname]

theorem claim3_witness :
    toolInvoke wPageFail [fileGood, fileText] "http://h.com" =
      [Event.text startValidateMsg,
        Event.json (unsupportedMsg "text/plain"),
        Event.json (abortMsg (PyErr.valueError (typeErrMsg "b.txt")))] :=
  claim3_type_validation wPageFail "http://h.com" [fileGood] [] fileText "b.txt"
    (by decide) (by decide) rfl

/-! ## C7 — image count, order, naming and MIME type -/

/-- Claim C7: a file whose download succeeds with non-empty bytes and whose
document opens with every page rendering (`imgs` in page order) yields exactly
the start status, the converted-count status reporting `imgs.length` (the page
count), and one blob event per page, in page order, where image `i` (0-based)
is page `i`'s bytes tagged `{filename}_page{i+1}.png` with MIME type
`image/png`. -/
theorem claim7_image_naming_order (w : World) (host : String) (f : DifyFile)
    (n u : String) (b : Bytes) (imgs : List Bytes)
    (hn : f.filename = some n) (hu : f.url = some u)
    (hnet : w.net (resolve_full_url u host) = Except.ok b) (hb : b ≠ [])
    (hopen : w.openPdf b = OpenResult.ok (imgs.map Except.ok)) :
    processOne w host f =
      (Event.text (startFileMsg n) :: Event.text (convertedMsg n imgs.length) ::
        blobEvents n 0 imgs, none) ∧
    (blobEvents n 0 imgs).length = imgs.length ∧
    ∀ (i : Nat) (hi : i < imgs.length) (hi2 : i < (blobEvents n 0 imgs).length),
      (blobEvents n 0 imgs).get ⟨i, hi2⟩ =
        Event.blob (n ++ "_page" ++ toString (i + 1) ++ ".png") "image/png"
          (imgs.get ⟨i, hi⟩) := by
  refine ⟨processOne_success w host f n u b imgs hn hu hnet hb hopen,
    blobEvents_length n imgs 0, ?_⟩
  intro i hi hi2
  simpa using blobEvents_get n imgs 0 i hi hi2

theorem claim7_witness :
    processOne wTwoPages "http://h.com" fileGood =
      (Event.text (startFileMsg "a.pdf") :: Event.text (convertedMsg "a.pdf" 2) ::
        blobEvents "a.pdf" 0 [[7, 8], [9]], none) :=
  (claim7_image_naming_order wTwoPages "http://h.com" fileGood "a.pdf" "files/a.pdf"
    [7, 8] [[7, 8], [9]] rfl rfl rfl (by decide) rfl).1

/-! ## C8 — malformed reference -/

/-- Claim C8: a reference missing its `filename` or `url` attribute makes the
download return `None` without any network request (the `AttributeError` is
caught, not propagated), and the diagnostic reported is the
malformed-reference one, a different report from the download-failure
diagnostic. -/
theorem claim8_malformed_reference (w : World) (host : String) (f : DifyFile)
    (h : f.filename = none ∨ f.url = none) :
    download_dify_file_content w f host =
      ⟨none, [LogMsg.malformedObj f], false⟩ ∧
    ∀ name url cause, LogMsg.malformedObj f ≠ LogMsg.downloadFailed name url cause := by
  constructor
  · rcases h with h | h
    · simp [download_dify_file_content, h]
    · rcases hf : f.filename with _ | nm
      · simp [download_dify_file_content, hf]
      · simp [download_dify_file_content, hf, h]
  · intro name url cause hcontr
    exact LogMsg.noConfusion hcontr

theorem claim8_witness :
    download_dify_file_content wNetFail fileNoUrl "http://h.com" =
      ⟨none, [LogMsg.malformedObj fileNoUrl], false⟩ :=
  (claim8_malformed_reference wNetFail "http://h.com" fileNoUrl (Or.inr rfl)).1

/-! ## C9 — empty or failed download aborts the batch -/

/-- Claim C9: whether the GET raises a `RequestException` or succeeds with an
empty body, the file's processing stops after the start status with the same
`IOError` naming the file, and the batch's phase 2 ends there — the files
after it (`post`, arbitrary) are never attempted, so the whole batch aborts
with no further output. -/
theorem claim9_download_empty_or_fail (w : World) (host : String) (f : DifyFile)
    (n u : String) (post : List DifyFile)
    (hn : f.filename = some n) (hu : f.url = some u)
    (hnet : (∃ cause, w.net (resolve_full_url u host) = Except.error cause) ∨
      w.net (resolve_full_url u host) = Except.ok []) :
    phase2 w host (f :: post) =
      ([Event.text (startFileMsg n)], some (PyErr.ioError (dlFailMsg n))) := by
  have hp : processOne w host f =
      ([Event.text (startFileMsg n)], some (PyErr.ioError (dlFailMsg n))) := by
    rcases hnet with ⟨cause, hc⟩ | hc
    · simp [processOne, hn, download_dify_file_content, hu, hc]
    · simp [processOne, hn, download_dify_file_content, hu, hc]
  simp [phase2, hp]

theorem claim9_witness :
    phase2 wNetFail "http://h.com" [fileGood, fileB] =
      ([Event.text (startFileMsg "a.pdf")],
        some (PyErr.ioError (dlFailMsg "a.pdf"))) :=
  claim9_download_empty_or_fail wNetFail "http://h.com" fileGood "a.pdf" "files/a.pdf"
    [fileB] rfl rfl (Or.inl ⟨"timeout", rfl⟩)

/-! ## C10 — zero-page documents succeed with no images -/

/-- Claim C10: a document that opens with zero pages converts successfully to
the empty image list, and the orchestrator yields the start status and the
converted-count status reporting 0 images — no blob events — then moves on to
the rest of the batch unchanged. -/
theorem claim10_zero_pages (w : World) (host : String) (f : DifyFile)
    (n u : String) (b : Bytes) (rest : List DifyFile)
    (hn : f.filename = some n) (hu : f.url = some u)
    (hnet : w.net (resolve_full_url u host) = Except.ok b) (hb : b ≠ [])
    (hopen : w.openPdf b = OpenResult.ok []) :
    convert_pdf_to_image_blobs w b = Except.ok [] ∧
    phase2 w host (f :: rest) =
      (Event.text (startFileMsg n) :: Event.text (convertedMsg n 0) ::
        (phase2 w host rest).1,
        (phase2 w host rest).2) := by
  have hp : processOne w host f =
      (Event.text (startFileMsg n) :: Event.text (convertedMsg n 0) ::
        blobEvents n 0 [], none) :=
    processOne_success w host f n u b [] hn hu hnet hb hopen
  constructor
  · simp [convert_pdf_to_image_blobs, convertRun, hopen, renderPages]
  · simp [phase2, hp, blobEvents]

theorem claim10_witness :
    convert_pdf_to_image_blobs wZeroPages [3] = Except.ok [] ∧
    phase2 wZeroPages "http://h.com" [fileGood] =
      (Event.text (startFileMsg "a.pdf") :: Event.text (convertedMsg "a.pdf" 0) ::
        (phase2 wZeroPages "http://h.com" ([] : List DifyFile)).1,
        (phase2 wZeroPages "http://h.com" ([] : List DifyFile)).2) :=
  claim10_zero_pages wZeroPages "http://h.com" fileGood "a.pdf" "files/a.pdf" [3] []
    rfl rfl rfl (by decide) rfl

/-! ## C4 — phase-2 failures are batch-fatal -/

/-- Claim C4: if every file of `pre` processes fully and file `fk` fails —
its download returns `None` or an empty body (raising the `IOError` `e`), or
its conversion raises `e` — then the whole output is exactly the two opening
statuses, the events already emitted for the files of `pre` (left in place,
not retracted), the start status for `fk`, and the single terminal structured
error event; nothing for `fk` beyond its start status and nothing at all for
the files after it (`post`, arbitrary, never attempted).  The events of `pre`
contain no structured (JSON) event, so the terminal error event is the only
one. -/
theorem claim4_batch_fatal (w : World) (host : String)
    (pre post : List DifyFile) (fk : DifyFile) (nk : String) (e : PyErr)
    (hmime : ∀ f ∈ pre ++ fk :: post, f.mime_type = "application/pdf")
    (hpre : ∀ f ∈ pre, (processOne w host f).2 = none)
    (hnk : fk.filename = some nk)
    (hfail :
      (((download_dify_file_content w fk host).content = none ∨
          (download_dify_file_content w fk host).content = some []) ∧
        e = PyErr.ioError (dlFailMsg nk)) ∨
      (∃ b, (download_dify_file_content w fk host).content = some b ∧ b ≠ [] ∧
        convert_pdf_to_image_blobs w b = Except.error e)) :
    toolInvoke w (pre ++ fk :: post) host =
      Event.text startValidateMsg :: Event.text validatePassMsg ::
        ((pre.map fun f => (processOne w host f).1).flatten ++
          [Event.text (startFileMsg nk), Event.json (abortMsg e)]) ∧
    ∀ f ∈ pre, ∀ s, Event.json s ∉ (processOne w host f).1 := by
  have he : processOne w host fk = ([Event.text (startFileMsg nk)], some e) := by
    rcases hfail with ⟨hd | hd, rfl⟩ | ⟨b, hd, hb, hc⟩
    · simp [processOne, hnk, hd]
    · simp [processOne, hnk, hd]
    · simp [processOne, hnk, hd, hb, hc]
  constructor
  · have h1 : phase1 (pre ++ fk :: post) = ([], none) :=
      phase1_all_ok (pre ++ fk :: post) hmime
    have h2 := phase2_append_ok w host pre (fk :: post) hpre
    have h3 : phase2 w host (fk :: post) = ([Event.text (startFileMsg nk)], some e) := by
      simp [phase2, he]
    rw [h3] at h2
    simp [toolInvoke, h1, h2]
  · intro f hf s
    exact processOne_no_json w host f s (hpre f hf)

theorem claim4_witness :
    toolInvoke wSecondFails [fileGood, fileB, fileGood] "http://h.com" =
      [Event.text startValidateMsg, Event.text validatePassMsg,
        Event.text (startFileMsg "a.pdf"), Event.text (convertedMsg "a.pdf" 1),
        Event.blob "a.pdf_page1.png" "image/png" [7],
        Event.text (startFileMsg "b.pdf"),
        Event.json (abortMsg (PyErr.ioError (dlFailMsg "b.pdf")))] :=
  (claim4_batch_fatal wSecondFails "http://h.com" [fileGood] [fileGood] fileB "b.pdf"
    (PyErr.ioError (dlFailMsg "b.pdf"))
    (by decide) (by decide) rfl (Or.inl ⟨Or.inl rfl, rfl⟩)).1
